import Mathlib

/-
Verification of the probe-aggregation and consensus engine implemented in
src/backend/lambda_function.py (a website status checker).

The embedding is shallow: each Python function becomes a Lean function over
explicit inputs.  Network and storage effects are represented by explicit
outcome parameters (an oracle per DNS resolver attempt, a future outcome per
external observer, a boolean error flag per storage call), and wall-clock
times are natural numbers counted in seconds.  Dictionaries keyed by strings
become association lists; insertion order follows the source's iteration
order.
-/

namespace WebsiteStatusChecker

/-- Value stored for one external observer in the aggregated checks mapping:
a status string plus a message/detail string (the source stores dicts such
as `\x7b'status': 'up', 'message': ...\x7d` or `\x7b'status': 'error', 'error': ...\x7d`). -/
structure ObsResult where
  status : String
  msg : String
deriving DecidableEq

/-- Outcome of one observer future submitted to the thread pool:
it completed within the 5-second overall budget returning a value (which may
be Python `None`, modelled as `Option.none`), it completed by raising an
exception, or it was still pending when `as_completed`'s budget expired. -/
inductive FOutcome where
  | completed (r : Option ObsResult)
  | raised (e : String)
  | pending
deriving DecidableEq

/-- One run's outcomes for the three dispatched observer checks, in the
source's submission order: check_downforeveryoneorjustme,
check_isitdownrightnow, check_websiteplanet. -/
structure ObsEnv where
  d4 : FOutcome
  iidrn : FOutcome
  wp : FOutcome
deriving DecidableEq

/-- The aggregated external-checks mapping (a Python dict keyed by observer
name), as an association list. -/
abbrev Payload := List (String × ObsResult)

/-- A row of the DynamoDB cache table for a given url: write timestamp
(seconds), ttl expiry timestamp (epoch seconds), and the cached data. -/
structure CacheEntry where
  timestamp : Nat
  ttl : Nat
  data : Payload
deriving DecidableEq

/-- The cache table's content for the key under consideration. -/
abbrev CacheState := Option CacheEntry

/-- Freshness window used on cache read: `timedelta(minutes=5)`, in seconds. -/
def freshness_window : Nat := 300

/-- Storage lifetime used on cache write: `timedelta(minutes=10)`, in seconds. -/
def storage_lifetime : Nat := 600

/-- get_cached_external_result: returns `item['data']` when an item exists
and `utcnow() - item['timestamp'] < timedelta(minutes=5)`; returns None when
the item is absent or stale; every storage-layer exception (ClientError or
any other) is caught and turned into None. -/
def get_cached_external_result (now : Nat) (st : CacheState) (readErr : Bool) : Option Payload :=
  if readErr then none
  else
    match st with
    | some item => if now - item.timestamp < freshness_window then some item.data else none
    | none => none

/-- cache_external_result: put_item with the current timestamp and
`ttl = utcnow() + timedelta(minutes=10)`; storage-layer exceptions are caught
and swallowed, leaving the table unchanged. -/
def cache_external_result (now : Nat) (data : Payload) (writeErr : Bool) (st : CacheState) :
    CacheState :=
  if writeErr then st else some ⟨now, now + storage_lifetime, data⟩

/-- The three observer service names, in the source's submission order. -/
def observer_names : List String :=
  ["downforeveryoneorjustme", "isitdownrightnow", "websiteplanet"]

/-- The futures dictionary of get_external_status_checks: each dispatched
observer paired with its run outcome. -/
def observer_outcomes (env : ObsEnv) : List (String × FOutcome) :=
  [("downforeveryoneorjustme", env.d4), ("isitdownrightnow", env.iidrn), ("websiteplanet", env.wp)]

/-- The body of the as_completed loop for one completed future:
`r = f.result(); if r: checks[svc] = r` on normal completion (a falsy/None
result is skipped), and `checks[svc] = \x7b'status': 'error', 'error': str(e)\x7d`
when the future raised. -/
def collect_one (checks : Payload) (svc : String) (o : FOutcome) : Payload :=
  match o with
  | .completed (some r) => checks ++ [(svc, r)]
  | .completed none => checks
  | .raised e => checks ++ [(svc, ObsResult.mk "error" e)]
  | .pending => checks

/-- The fan-out/collect step over the three futures.  If any future is still
pending when the 5-second `as_completed` budget expires, `as_completed`
raises TimeoutError out of the loop (everything collected so far is then
discarded by the caller's outer except); otherwise the loop records each
completed future's outcome. -/
def run_fanout (env : ObsEnv) : Except String Payload :=
  if (observer_outcomes env).any (fun p => p.2 == FOutcome.pending) then
    Except.error "TimeoutError"
  else
    Except.ok ((observer_outcomes env).foldl (fun acc p => collect_one acc p.1 p.2) [])

/-- Observable result of get_external_status_checks: the returned value
(None on internal failure, otherwise the checks dict), the list of observer
checks that were dispatched to the thread pool, and the cache state after
the call. -/
structure ExtResult where
  result : Option Payload
  dispatched : List String
  cacheAfter : CacheState
deriving DecidableEq

/-- The cache-miss path of get_external_status_checks: dispatch all three
observers; a TimeoutError from as_completed propagates to the outer except
which returns None; otherwise write the checks dict to the cache when it is
non-empty (truthy) and return it. -/
def ext_fanout (now : Nat) (st : CacheState) (writeErr : Bool) (env : ObsEnv) : ExtResult :=
  match run_fanout env with
  | .error _ => ⟨none, observer_names, st⟩
  | .ok checks =>
    if checks.isEmpty then ⟨some checks, observer_names, st⟩
    else ⟨some checks, observer_names, cache_external_result now checks writeErr st⟩

/-- get_external_status_checks: first consult the cache; a truthy cached
value is returned as-is with no observer dispatched (`if cached: return
cached`); otherwise fan out to the three observers. -/
def get_external_status_checks (now : Nat) (st : CacheState) (readErr writeErr : Bool)
    (env : ObsEnv) : ExtResult :=
  match get_cached_external_result now st readErr with
  | some cached =>
    if cached.isEmpty then ext_fanout now st writeErr env
    else ⟨some cached, [], st⟩
  | none => ext_fanout now st writeErr env

/-- The fixed resolver list of check_dns_resolution. -/
def dns_servers : List String := ["8.8.8.8", "1.1.1.1", "208.67.222.222"]

/-- Per-resolver record appended by check_dns_resolution's loop: the server
name, 'success' with the resolved ip, or 'failed' with the error text. -/
structure ResolverAttempt where
  dns_server : String
  status : String
  info : String
deriving DecidableEq

/-- Aggregate value returned by check_dns_resolution. -/
structure DnsProbeResult where
  overall_status : String
  success_count : Nat
  total_servers : Nat
  results : List ResolverAttempt
deriving DecidableEq

/-- check_dns_resolution: one `gethostbyname` attempt per entry of
dns_servers (the oracle gives each attempt's outcome; every exception is
caught inside the loop), then the derived success count and overall status. -/
def check_dns_resolution (oracle : String → Except String String) : DnsProbeResult :=
  let results := dns_servers.map (fun s =>
    match oracle s with
    | .ok ip => ResolverAttempt.mk s "success" ip
    | .error e => ResolverAttempt.mk s "failed" e)
  let success := (results.filter (fun r => r.status == "success")).length
  ⟨if success > 0 then "success" else "failed", success, dns_servers.length, results⟩

/-- The fields of the http probe's dict that the verdict and summary read. -/
structure HttpResult where
  status : String
deriving DecidableEq

/-- The fields of the port probe's dict that the verdict and summary read. -/
structure PortResult where
  status : String
deriving DecidableEq

/-- The `checks` dict handed to determine_overall_status and
generate_status_summary. -/
structure Checks where
  dns : DnsProbeResult
  http : HttpResult
  port : PortResult
deriving DecidableEq

/-- determine_overall_status, translated clause for clause. -/
def determine_overall_status (checks : Checks) : String :=
  let dns_ok := checks.dns.overall_status == "success"
  let http_ok := checks.http.status == "success"
  let port_ok := checks.port.status == "open"
  if http_ok then "up"
  else if dns_ok && port_ok then "partial"
  else if dns_ok then "dns_only"
  else "down"

/-- generate_status_summary: the three parts appended in order and joined
with '; '.  The http part falls back to the raw status string when it is not
'success'. -/
def generate_status_summary (checks : Checks) : String :=
  let parts : List String :=
    [if checks.dns.overall_status == "success" then "DNS OK" else "DNS fail",
     if checks.http.status == "success" then "HTTP OK" else checks.http.status,
     if checks.port.status == "open" then "Port open" else "Port closed"]
  String.intercalate "; " parts

/-- The scheme/netloc split performed by `urlparse` on a url that begins
with 'http://' or 'https://': the scheme is the part before '://', and what
follows the '//' starts the netloc. -/
def scheme_and_rest (u : List Char) : Option (String × List Char) :=
  if "http://".data.isPrefixOf u then some ("http", u.drop 7)
  else if "https://".data.isPrefixOf u then some ("https", u.drop 8)
  else none

/-- `urlparse`'s netloc: the characters following '//' up to the first
'/', '?' or '#'. -/
def netloc_chars (r : List Char) : List Char :=
  r.takeWhile (fun c => !(c == '/' || c == '?' || c == '#'))

/-- is_valid_url: prepend 'https://' unless the string already starts with
'http://' or 'https://', then parse and require scheme http/https and a
non-empty netloc. -/
def is_valid_url (url : String) : Bool :=
  let u := if "http://".data.isPrefixOf url.data || "https://".data.isPrefixOf url.data
    then url.data else "https://".data ++ url.data
  match scheme_and_rest u with
  | some sr => (sr.1 == "http" || sr.1 == "https") && !(netloc_chars sr.2).isEmpty
  | none => false

/-- Observable outcome of lambda_handler for a POST request: the HTTP status
code of the response and which network-performing operations ran, in order. -/
structure HandlerResult where
  statusCode : Nat
  networkCalls : List String
deriving DecidableEq

/-- lambda_handler's control flow for a POST request carrying an optional
url: missing url or an invalid url is answered 400 before any probing; a
valid url runs check_website_status and then get_external_status_checks. -/
def lambda_handler (url : Option String) : HandlerResult :=
  match url with
  | none => ⟨400, []⟩
  | some u =>
    if is_valid_url u then ⟨200, ["check_website_status", "get_external_status_checks"]⟩
    else ⟨400, []⟩

/-- Response fields of multi_region_check relevant to the consensus. -/
structure MultiRegionOut where
  overall_status : String
  regions_up : Nat
  total_regions : Nat
  results : List String
deriving DecidableEq

/-- multi_region_check's collection and consensus step.  Each peer region's
invocation either yields a recognized 200 response carrying a status string,
or fails (exception or non-200 payload) and is skipped; the local result is
always first in `all_res`.  Then `up` counts statuses in \x7bup, partial\x7d,
`total = len(all_res)`, and the overall verdict is 'up' if `up == total`,
else 'mixed' if `up > 0`, else 'down'. -/
def multi_region_check (localStatus : String) (peers : List (Option String)) : MultiRegionOut :=
  let other_results := peers.filterMap id
  let all_res := localStatus :: other_results
  let up := (all_res.filter (fun s => s == "up" || s == "partial")).length
  let total := all_res.length
  let overall := if up = total then "up" else if up > 0 then "mixed" else "down"
  ⟨overall, up, total, all_res⟩

/-- analyze_multi_region_results: the one-line explanation attached to the
multi-region response. -/
def analyze_multi_region_results (results : List String) : String :=
  if results.isEmpty then "No results to analyze"
  else
    let total := results.length
    let up := (results.filter (fun s => s == "up" || s == "partial")).length
    if up = total then "Website accessible from all tested regions"
    else if up = 0 then "Website appears down globally"
    else "Mixed: " ++ toString up ++ "/" ++ toString total ++ " regions can reach it"

/-- The mapping entry that get_external_status_checks actually produces for
one observer, as a function of its future's outcome: the returned dict for
a truthy completion, an error-marked entry when the future raised, and no
entry at all for a falsy (None) completion; a pending future never
contributes an entry (the whole call returns None in that case). -/
def entry_of_outcome : FOutcome → Option ObsResult
  | .completed r => r
  | .raised e => some (ObsResult.mk "error" e)
  | .pending => none

/-- C1: determine_overall_status returns 'up' if the HTTP probe's status is
'success' (any status code), otherwise 'partial' if the DNS overall_status
is 'success' and the port status is 'open', otherwise 'dns_only' if the DNS
overall_status is 'success', and 'down' otherwise, the four branches being
evaluated in exactly this precedence order. -/
theorem determine_overall_status_precedence (c : Checks) :
    determine_overall_status c =
      if c.http.status = "success" then "up"
      else if c.dns.overall_status = "success" ∧ c.port.status = "open" then "partial"
      else if c.dns.overall_status = "success" then "dns_only"
      else "down" := by
  unfold determine_overall_status
  by_cases h1 : c.http.status = "success" <;>
    by_cases h2 : c.dns.overall_status = "success" <;>
    by_cases h3 : c.port.status = "open" <;>
    simp [h1, h2, h3]

/-- Joining three strings with '; ' concatenates them with the separator. -/
theorem intercalate_three (a b c : String) :
    String.intercalate "; " [a, b, c] = a ++ "; " ++ b ++ "; " ++ c := rfl

/-- C10: generate_status_summary renders three segments joined by '; ' in
the fixed order DNS, HTTP, port; the port segment is 'Port open' exactly
when the port status is 'open' and 'Port closed' for every other port
status (including 'error'), and the DNS segment is 'DNS fail' for any
non-success DNS status — so a port-probe error or DNS error is rendered
like a closed port or a plain resolution failure. -/
theorem generate_status_summary_segments (c : Checks) :
    generate_status_summary c =
      (if c.dns.overall_status = "success" then "DNS OK" else "DNS fail") ++ "; " ++
      (if c.http.status = "success" then "HTTP OK" else c.http.status) ++ "; " ++
      (if c.port.status = "open" then "Port open" else "Port closed") := by
  unfold generate_status_summary
  rw [intercalate_three]
  by_cases h1 : c.dns.overall_status = "success" <;>
    by_cases h2 : c.http.status = "success" <;>
    by_cases h3 : c.port.status = "open" <;>
    simp [h1, h2, h3]

/-- C6: check_dns_resolution always returns a DnsProbeResult (it is a total
function over the per-attempt oracle, mirroring the per-resolver exception
handling), and in every returned result success_count ≤ total_servers and
overall_status = 'success' iff success_count > 0. -/
theorem check_dns_resolution_invariants (oracle : String → Except String String) :
    (check_dns_resolution oracle).success_count ≤ (check_dns_resolution oracle).total_servers ∧
    ((check_dns_resolution oracle).overall_status = "success" ↔
      0 < (check_dns_resolution oracle).success_count) := by
  unfold check_dns_resolution
  refine ⟨?_, ?_⟩
  · calc ((dns_servers.map _).filter _).length
        ≤ (dns_servers.map (fun s =>
            match oracle s with
            | .ok ip => ResolverAttempt.mk s "success" ip
            | .error e => ResolverAttempt.mk s "failed" e)).length := List.length_filter_le _ _
      _ = dns_servers.length := List.length_map _ _
  · by_cases h : 0 < ((dns_servers.map (fun s =>
        match oracle s with
        | .ok ip => ResolverAttempt.mk s "success" ip
        | .error e => ResolverAttempt.mk s "failed" e)).filter (fun r => r.status == "success")).length <;>
      simp [h]

/-- C7: the cache read returns the cached payload exactly when the entry is
present, the storage layer does not error, and now minus the write
timestamp is within the 5-minute freshness window; an absent entry, a stale
entry, or any storage-layer error behaves as a cache miss (None), and the
catch-all translation means the read never raises to its caller. -/
theorem get_cached_external_result_spec (now t ttl : Nat) (d : Payload) (err : Bool)
    (st : CacheState) :
    get_cached_external_result now (some ⟨t, ttl, d⟩) false =
      (if now - t < freshness_window then some d else none) ∧
    get_cached_external_result now none err = none ∧
    get_cached_external_result now st true = none := by
  unfold get_cached_external_result
  refine ⟨rfl, ?_, ?_⟩ <;> simp

/-- C8: the cache write stores the payload with the current write timestamp
and a ttl expiry of now plus the 10-minute storage lifetime, which is
strictly longer than the 5-minute read freshness window; a storage-layer
error is swallowed, leaving the store unchanged and returning normally. -/
theorem cache_external_result_spec (now : Nat) (d : Payload) (st : CacheState) :
    cache_external_result now d false st = some ⟨now, now + storage_lifetime, d⟩ ∧
    cache_external_result now d true st = st ∧
    freshness_window < storage_lifetime := by
  unfold cache_external_result freshness_window storage_lifetime
  refine ⟨rfl, rfl, by norm_num⟩

/-- The source's verdict branch order (up, then mixed on up > 0, then down)
coincides with the claim's branch order (up, then down on up = 0, then
mixed). -/
theorem multi_region_overall_aux (up total : Nat) :
    (if up = total then "up" else if up > 0 then "mixed" else "down") =
    (if up = total then "up" else if up = 0 then "down" else "mixed") := by
  split_ifs <;> first | rfl | omega

/-- C4: in multi_region_check the collected results are the local result
followed by exactly the peers whose invocation returned a recognized 200
response (failed peers are omitted from the list and the denominator),
regions_up counts collected results with status 'up' or 'partial',
total_regions is the number of collected results, and the overall status is
'up' when regions_up = total_regions, 'down' when regions_up = 0, and
'mixed' otherwise. -/
theorem multi_region_check_consensus (localStatus : String) (peers : List (Option String)) :
    (multi_region_check localStatus peers).results = localStatus :: peers.filterMap id ∧
    (multi_region_check localStatus peers).total_regions =
      (multi_region_check localStatus peers).results.length ∧
    (multi_region_check localStatus peers).regions_up =
      ((multi_region_check localStatus peers).results.filter
        (fun s => s == "up" || s == "partial")).length ∧
    (multi_region_check localStatus peers).overall_status =
      (if (multi_region_check localStatus peers).regions_up =
            (multi_region_check localStatus peers).total_regions then "up"
       else if (multi_region_check localStatus peers).regions_up = 0 then "down"
       else "mixed") := by
  refine ⟨rfl, rfl, rfl, multi_region_overall_aux _ _⟩

/-- C2: demonstration of the code bug.  The empty string is rejected with a
400 validation error and no network call, as the claim says; but
'not a url' and 'ftp://x.com', which the claim says are also rejected, are
accepted by is_valid_url (after defaulting, urlparse yields scheme 'https'
with non-empty netloc 'not a url' resp. 'ftp:'), so lambda_handler proceeds
to the probing network calls for them. -/
theorem is_valid_url_accepts_invalid_inputs :
    is_valid_url "" = false ∧
    (lambda_handler (some "")).statusCode = 400 ∧
    (lambda_handler (some "")).networkCalls = [] ∧
    is_valid_url "not a url" = true ∧
    (lambda_handler (some "not a url")).networkCalls ≠ [] ∧
    is_valid_url "ftp://x.com" = true ∧
    (lambda_handler (some "ftp://x.com")).networkCalls ≠ [] := by decide

/-- C5: if the cache holds an entry for the target url whose write
timestamp is within the freshness window at read time (its payload being
non-empty, as is every payload this system writes), then
get_external_status_checks returns that cached payload unchanged and
dispatches no observer; if the entry is older than the freshness window,
the read behaves as a miss and a fresh fan-out dispatching all three
observers is performed. -/
theorem get_external_status_checks_cache_spec (now t ttl : Nat) (d : Payload) (werr : Bool)
    (env : ObsEnv) (hne : d ≠ []) :
    (now - t < freshness_window →
      (get_external_status_checks now (some ⟨t, ttl, d⟩) false werr env).result = some d ∧
      (get_external_status_checks now (some ⟨t, ttl, d⟩) false werr env).dispatched = []) ∧
    (freshness_window ≤ now - t →
      get_external_status_checks now (some ⟨t, ttl, d⟩) false werr env =
        ext_fanout now (some ⟨t, ttl, d⟩) werr env ∧
      (get_external_status_checks now (some ⟨t, ttl, d⟩) false werr env).dispatched =
        observer_names) := by
  constructor
  · intro h
    have hs : get_cached_external_result now (some ⟨t, ttl, d⟩) false = some d := by
      unfold get_cached_external_result
      simp [h]
    have hd : d.isEmpty = false := by
      cases d with
      | nil => exact absurd rfl hne
      | cons x l => rfl
    unfold get_external_status_checks
    rw [hs]
    simp [hd]
  · intro h
    have hm : get_cached_external_result now (some ⟨t, ttl, d⟩) false = none := by
      unfold get_cached_external_result
      simp [Nat.not_lt.mpr h]
    have h1 : get_external_status_checks now (some ⟨t, ttl, d⟩) false werr env =
        ext_fanout now (some ⟨t, ttl, d⟩) werr env := by
      unfold get_external_status_checks
      rw [hm]
    refine ⟨h1, ?_⟩
    rw [h1]
    unfold ext_fanout
    cases run_fanout env with
    | error e => rfl
    | ok checks =>
      by_cases hc : checks.isEmpty <;> simp [hc]

/-- C5 witness: a fresh, non-empty cached entry is returned as-is. -/
theorem get_external_status_checks_cache_spec_witness :
    (get_external_status_checks 10 (some ⟨0, 600, [("websiteplanet", ObsResult.mk "up" "ok")]⟩)
        false false (ObsEnv.mk FOutcome.pending FOutcome.pending FOutcome.pending)).result =
      some [("websiteplanet", ObsResult.mk "up" "ok")] := by
  have h := get_external_status_checks_cache_spec 10 0 600
    [("websiteplanet", ObsResult.mk "up" "ok")] false
    (ObsEnv.mk FOutcome.pending FOutcome.pending FOutcome.pending) (by decide)
  exact (h.1 (by decide)).1

/-- C9: get_external_status_checks never raises to its caller (its outer
catch-all is embedded as the total translation returning None on internal
failure), and when no fresh cache entry exists and no observer could be
reached — every future is still pending at the overall budget, or completed
with no usable result — it returns an absent (None) or empty result rather
than an error. -/
theorem get_external_status_checks_total_failure (now : Nat) (st : CacheState)
    (rerr werr : Bool) (env : ObsEnv)
    (hmiss : get_cached_external_result now st rerr = none)
    (hfail : (env.d4 = FOutcome.pending ∨ env.d4 = FOutcome.completed none) ∧
             (env.iidrn = FOutcome.pending ∨ env.iidrn = FOutcome.completed none) ∧
             (env.wp = FOutcome.pending ∨ env.wp = FOutcome.completed none)) :
    (get_external_status_checks now st rerr werr env).result = none ∨
    (get_external_status_checks now st rerr werr env).result = some [] := by
  have h1 : get_external_status_checks now st rerr werr env = ext_fanout now st werr env := by
    unfold get_external_status_checks
    rw [hmiss]
  rw [h1]
  obtain ⟨ha, hb, hc⟩ := hfail
  rcases ha with ha | ha <;> rcases hb with hb | hb <;> rcases hc with hc | hc <;>
    simp [ext_fanout, run_fanout, observer_outcomes, collect_one, ha, hb, hc]

/-- C9 witness: every observer completed with no usable result and the cache
is empty; the call returns an empty or absent result. -/
theorem get_external_status_checks_total_failure_witness :
    (get_external_status_checks 0 none false false
        (ObsEnv.mk (FOutcome.completed none) (FOutcome.completed none)
          (FOutcome.completed none))).result = none ∨
    (get_external_status_checks 0 none false false
        (ObsEnv.mk (FOutcome.completed none) (FOutcome.completed none)
          (FOutcome.completed none))).result = some [] :=
  get_external_status_checks_total_failure 0 none false false _ rfl (by decide)

/-- C3 is false on the code at this concrete run: the cache is empty,
check_downforeveryoneorjustme's future completed with Python None (that
function's own behaviour when its request raises), and the other two
observers succeeded.  The returned mapping holds only the two successful
entries: the failed observer receives no error-marked entry and is silently
absent, although it was dispatched. -/
theorem get_external_status_checks_drops_failed_observer :
    (get_external_status_checks 0 none false false
        (ObsEnv.mk (FOutcome.completed none)
          (FOutcome.completed (some (ObsResult.mk "down" "Connection failed")))
          (FOutcome.completed (some (ObsResult.mk "up" "Site appears up"))))).dispatched =
      observer_names ∧
    (get_external_status_checks 0 none false false
        (ObsEnv.mk (FOutcome.completed none)
          (FOutcome.completed (some (ObsResult.mk "down" "Connection failed")))
          (FOutcome.completed (some (ObsResult.mk "up" "Site appears up"))))).result =
      some [("isitdownrightnow", ObsResult.mk "down" "Connection failed"),
            ("websiteplanet", ObsResult.mk "up" "Site appears up")] ∧
    (((get_external_status_checks 0 none false false
        (ObsEnv.mk (FOutcome.completed none)
          (FOutcome.completed (some (ObsResult.mk "down" "Connection failed")))
          (FOutcome.completed (some (ObsResult.mk "up" "Site appears up"))))).result).getD []).lookup
      "downforeveryoneorjustme" = none := by decide

/-- C3 (amended): on a cache miss, when some future is still pending at the
overall budget the whole aggregation returns None (as_completed's
TimeoutError reaches the outer catch-all) rather than a partial mapping;
otherwise the returned mapping holds, per dispatched observer, exactly the
entry determined by its outcome — its returned dict if truthy, an
error-marked entry if its future raised, and no entry at all if it
completed with a falsy (None) result, which is therefore silently absent. -/
theorem get_external_status_checks_entry_characterization (now : Nat) (st : CacheState)
    (rerr werr : Bool) (env : ObsEnv)
    (hmiss : get_cached_external_result now st rerr = none) :
    if env.d4 = FOutcome.pending ∨ env.iidrn = FOutcome.pending ∨ env.wp = FOutcome.pending then
      (get_external_status_checks now st rerr werr env).result = none
    else
      ∃ m, (get_external_status_checks now st rerr werr env).result = some m ∧
        m.lookup "downforeveryoneorjustme" = entry_of_outcome env.d4 ∧
        m.lookup "isitdownrightnow" = entry_of_outcome env.iidrn ∧
        m.lookup "websiteplanet" = entry_of_outcome env.wp := by
  have h1 : get_external_status_checks now st rerr werr env = ext_fanout now st werr env := by
    unfold get_external_status_checks
    rw [hmiss]
  rw [h1]
  rcases h4 : env.d4 with (_ | r4) | e4 | _ <;>
    rcases h5 : env.iidrn with (_ | r5) | e5 | _ <;>
    rcases h6 : env.wp with (_ | r6) | e6 | _ <;>
    simp [ext_fanout, run_fanout, observer_outcomes, collect_one, entry_of_outcome,
      List.lookup, h4, h5, h6] <;>
    rintro a b (⟨rfl, -⟩ | ⟨rfl, -⟩) <;> decide

/-- C3 (amended) witness: a raised future yields an error-marked entry, a
truthy completion yields its dict, and a falsy (None) completion yields no
entry. -/
theorem get_external_status_checks_entry_characterization_witness :
    ∃ m, (get_external_status_checks 0 none false false
        (ObsEnv.mk (FOutcome.raised "boom")
          (FOutcome.completed (some (ObsResult.mk "up" "m")))
          (FOutcome.completed none))).result = some m ∧
      m.lookup "downforeveryoneorjustme" = some (ObsResult.mk "error" "boom") ∧
      m.lookup "isitdownrightnow" = some (ObsResult.mk "up" "m") ∧
      m.lookup "websiteplanet" = none := by
  have h := get_external_status_checks_entry_characterization 0 none false false
    (ObsEnv.mk (FOutcome.raised "boom")
      (FOutcome.completed (some (ObsResult.mk "up" "m")))
      (FOutcome.completed none)) rfl
  simpa [entry_of_outcome] using h

end WebsiteStatusChecker
